import Mathlib

/-!
Verification of the workflow execution test harness
(src/examples/test_workflows.py) against its specification.

The harness drives a remote workflow service over HTTP: a health probe
(check_daemon), a fixture loader (load_workflow), a lifecycle client
(create_workflow, execute_workflow, delete_workflow), per-case
orchestration (test_workflow) and a run loop with aggregate counters and
a process exit code (main).

The embedding below is a shallow one.  JSON documents are modelled by the
inductive type Json.  Every network interaction is modelled by an
HttpResult oracle value: either the underlying urlopen call raises
(connectivity error, timeout, HTTPError) or it yields a status code
together with the response body; the body is given already as
Option Json, where none means the body did not parse as JSON
(json.loads raises).  Python control flow, including which exceptions
reach the catch-all handler in test_workflow, is translated branch by
branch from the source.
-/

namespace TestWorkflows

/-- JSON values as produced by json.loads: null, booleans, numbers,
strings, arrays and objects.  Numbers are modelled as integers; no claim
depends on fractional values.  Object fields are kept as an association
list; json.loads yields unique keys, and lookups take the first match. -/
inductive Json where
  | null : Json
  | bool (b : Bool) : Json
  | num (n : Int) : Json
  | str (s : String) : Json
  | arr (elems : List Json) : Json
  | obj (fields : List (String × Json)) : Json

/-- Outcome of one urlopen call: exn models any raised exception
(URLError, HTTPError, timeout); resp models a returned response with its
HTTP status code and its body, where the body is none when the bytes do
not parse as JSON (so a later json.loads raises). -/
inductive HttpResult where
  | exn : HttpResult
  | resp (status : Nat) (body : Option Json) : HttpResult

/-- Python truthiness of a JSON value, as used by the source in
`if workflow_id:` and `if output:`. -/
def truthy : Json → Bool
  | Json.null => false
  | Json.bool b => b
  | Json.num n => if n = 0 then false else true
  | Json.str s => if s = "" then false else true
  | Json.arr [] => false
  | Json.arr (_ :: _) => true
  | Json.obj [] => false
  | Json.obj (_ :: _) => true

/-- Python equality test `status == "completed"`: true exactly when the
value is the string "completed". -/
def isCompleted : Json → Bool
  | Json.str s => if s = "completed" then true else false
  | _ => false

/-- Whether the diagnostic printing of the output value inside the
completed branch of test_workflow (lines 167 to 174 of the source) runs
without raising.  A falsy output skips the block entirely.  A truthy
output reaches `len(output)` and `list(output.keys())`: both succeed
exactly when the value is a dict; a truthy number or boolean fails at
`len`, a truthy string or list fails at `.keys()`.  Any exception here
escapes to the catch-all handler of test_workflow. -/
def outputPrintOk : Json → Bool
  | Json.obj _ => true
  | j => !truthy j

/-- Embedding of check_daemon (source lines 41 to 55): true exactly when
the GET on the health endpoint returns without raising and with status
200; any exception or any other status falls through to false. -/
def check_daemon : HttpResult → Bool
  | HttpResult.exn => false
  | HttpResult.resp s _ => if s = 200 then true else false

/-- The request body built by create_workflow (source lines 66 to 71):
`workflow_data.get(key, default)` for the four fields.  When the loaded
fixture is not a dict the attribute access raises inside the try of
create_workflow, before any request is issued; that is the none case. -/
def create_body : Json → Option Json
  | Json.obj fs => some (Json.obj
      [("name", (List.lookup "name" fs).getD (Json.str "Test Workflow")),
       ("description", (List.lookup "description" fs).getD (Json.str "")),
       ("nodes", (List.lookup "nodes" fs).getD (Json.arr [])),
       ("connections", (List.lookup "connections" fs).getD (Json.arr []))])
  | _ => none

/-- Embedding of create_workflow (source lines 62 to 96).  Returns the
pair (success, workflow_id); every failure path of the source returns
(False, "").  Success needs: the body built, the POST not raising, a 200
or 201 status, a body that parses to a dict, and a truthy value under
the id key (`result.get("id")` followed by `if workflow_id:`). -/
def create_workflow (workflow_data : Json) (r : HttpResult) : Bool × Json :=
  match create_body workflow_data with
  | none => (false, Json.str "")
  | some _ =>
    match r with
    | HttpResult.exn => (false, Json.str "")
    | HttpResult.resp s body =>
      if s = 200 ∨ s = 201 then
        match body with
        | none => (false, Json.str "")
        | some (Json.obj fs) =>
          let wid := (List.lookup "id" fs).getD Json.null
          if truthy wid then (true, wid) else (false, Json.str "")
        | some _ => (false, Json.str "")
      else (false, Json.str "")

/-- Embedding of execute_workflow (source lines 98 to 116).  Returns
(success, result); every failure path returns (False, {}).  Success is
transport-level only: status 200 and a body that parses as JSON, of any
shape. -/
def execute_workflow (r : HttpResult) : Bool × Json :=
  match r with
  | HttpResult.exn => (false, Json.obj [])
  | HttpResult.resp s body =>
    if s = 200 then
      match body with
      | none => (false, Json.obj [])
      | some j => (true, j)
    else (false, Json.obj [])

/-- Embedding of delete_workflow (source lines 118 to 128): the bare
except swallows every outcome, so the call has no observable result at
all; only the fact that it was attempted is observable. -/
def delete_workflow (_workflow_id : Json) (_r : HttpResult) : Unit := ()

/-- Oracle inputs for one test case: the parse result of the fixture
file (none when json.load raises) and the outcome of each of the three
possible HTTP calls. -/
structure Env where
  loadResult : Option Json
  createResp : HttpResult
  execResp : HttpResult
  deleteResp : HttpResult

/-- Observable trace of one test_workflow invocation: whether a create
request was issued, whether it succeeded, whether an execute request was
issued, how many delete requests were issued, the returned verdict, and
the status value interpolated into the failure message of the
non-completed branch (line 180 of the source), when that branch ran. -/
structure Trace where
  createReq : Bool
  createOk : Bool
  execCalled : Bool
  deleteCalls : Nat
  passed : Bool
  statusReason : Option Json

/-- Embedding of test_workflow (source lines 130 to 193) over the parts
of the oracle it reads.  The catch-all handler at line 189 turns any
exception inside the try into a False verdict; the branches below record
where each such exception arises: a fixture that fails to load, a loaded
fixture that is not a dict (raising inside create_workflow before the
request), an execute body that is not a dict (line 160 raises), and a
completed result whose truthy output is not a dict (raising during
diagnostic printing, before the delete at line 177). -/
def test_workflow_core (load : Option Json) (createResp execResp : HttpResult) : Trace :=
  match load with
  | none => ⟨false, false, false, 0, false, none⟩
  | some wd =>
    match create_body wd with
    | none => ⟨false, false, false, 0, false, none⟩
    | some _ =>
      if (create_workflow wd createResp).1 then
        if (execute_workflow execResp).1 then
          match (execute_workflow execResp).2 with
          | Json.obj fs =>
            if isCompleted ((List.lookup "status" fs).getD (Json.str "unknown")) then
              if outputPrintOk ((List.lookup "output" fs).getD (Json.obj [])) then
                ⟨true, true, true, 1, true, none⟩
              else
                ⟨true, true, true, 0, false, none⟩
            else
              ⟨true, true, true, 1, false,
                some ((List.lookup "status" fs).getD (Json.str "unknown"))⟩
          | _ => ⟨true, true, true, 0, false, none⟩
        else
          ⟨true, true, true, 1, false, none⟩
      else
        ⟨true, false, false, 0, false, none⟩

/-- test_workflow reads the load result and the create and execute
oracles; the delete oracle is never consulted because delete_workflow
swallows every outcome. -/
def test_workflow (e : Env) : Trace :=
  test_workflow_core e.loadResult e.createResp e.execResp

/-- Observable outcome of one main invocation: the sys.exit code, how
many test cases ran, the three aggregate counters of the summary, the
number of HTTP requests of each kind issued over the whole run, and the
error lines printed on the abort paths. -/
structure RunOutcome where
  exitCode : Nat
  casesRun : Nat
  total : Nat
  passed : Nat
  failed : Nat
  createReqs : Nat
  execCalls : Nat
  deleteCalls : Nat
  msgs : List String

/-- Aggregation performed by the loop of main (source lines 209 to 244)
over the per-case traces, in fixture order. -/
def summarize (ts : List Trace) : RunOutcome where
  exitCode := if (ts.filter fun t => !t.passed).length = 0 then 0 else 1
  casesRun := ts.length
  total := ts.length
  passed := (ts.filter fun t => t.passed).length
  failed := (ts.filter fun t => !t.passed).length
  createReqs := (ts.filter fun t => t.createReq).length
  execCalls := (ts.filter fun t => t.execCalled).length
  deleteCalls := (ts.map fun t => t.deleteCalls).sum
  msgs := []

/-- Outcome of the abort path when the health probe fails (source lines
200 to 202 together with lines 53 to 54): sys.exit(1) before any fixture
is read. -/
def daemonDownOutcome : RunOutcome where
  exitCode := 1
  casesRun := 0
  total := 0
  passed := 0
  failed := 0
  createReqs := 0
  execCalls := 0
  deleteCalls := 0
  msgs := ["Daemon is not running",
           "Please start it with: cargo run --bin agency-daemon --release"]

/-- Outcome of the abort path when the fixtures directory holds no json
file (source lines 217 to 219): sys.exit(1) before any lifecycle call. -/
def noWorkflowsOutcome : RunOutcome where
  exitCode := 1
  casesRun := 0
  total := 0
  passed := 0
  failed := 0
  createReqs := 0
  execCalls := 0
  deleteCalls := 0
  msgs := ["No workflow files found in examples/workflows"]

/-- Embedding of main (source lines 195 to 244).  The fixture files
found by the glob, in sorted order, are represented by the list of their
oracle environments; an empty directory is the empty list. -/
def main_run (health : HttpResult) (envs : List Env) : RunOutcome :=
  if check_daemon health then
    if envs.isEmpty then noWorkflowsOutcome
    else summarize (envs.map test_workflow)
  else daemonDownOutcome

/-- Condition on an execute oracle under which the per-case control flow
of test_workflow reaches one of its delete_workflow calls whenever the
create call succeeded: either the execute call fails at transport level,
or the returned body is a dict and, when its status is completed, its
output survives the diagnostic printing. -/
def cleanupSafe : HttpResult → Bool
  | HttpResult.exn => true
  | HttpResult.resp s body =>
    if s = 200 then
      match body with
      | none => true
      | some (Json.obj fs) =>
        if isCompleted ((List.lookup "status" fs).getD (Json.str "unknown")) then
          outputPrintOk ((List.lookup "output" fs).getD (Json.obj []))
        else true
      | some _ => false
    else true

/-- Splitting a list by a Boolean predicate preserves its length. -/
theorem length_filter_add_length_filter_not {α : Type} (p : α → Bool) (l : List α) :
    (l.filter p).length + (l.filter fun x => !p x).length = l.length := by
  induction l with
  | nil => rfl
  | cons a t ih =>
    cases hpa : p a <;> simp [List.filter_cons, hpa] <;> omega

/-- C6: after the run completes, the aggregate counters satisfy
total = passed + failed; every processed fixture contributes one to
total and one to exactly one of passed or failed, and on the abort paths
all three counters are zero. -/
theorem c6_total_eq_passed_add_failed (health : HttpResult) (envs : List Env) :
    (main_run health envs).total = (main_run health envs).passed + (main_run health envs).failed := by
  unfold main_run
  cases hd : check_daemon health
  · simp [daemonDownOutcome]
  · by_cases he : envs.isEmpty
    · simp [he, noWorkflowsOutcome]
    · simp [he, summarize]
      have h := length_filter_add_length_filter_not (fun t => t.passed) (envs.map test_workflow)
      simp at h
      omega

/-- C5: once the test loop runs (health probe passed, at least one
fixture present), the exit code is 0 exactly when the failed counter is
0, and 1 otherwise. -/
theorem c5_exit_code (health : HttpResult) (e : Env) (rest : List Env)
    (hd : check_daemon health = true) :
    ((main_run health (e :: rest)).exitCode = 0 ↔ (main_run health (e :: rest)).failed = 0) ∧
    ((main_run health (e :: rest)).failed ≠ 0 → (main_run health (e :: rest)).exitCode = 1) := by
  have h1 : main_run health (e :: rest) = summarize ((e :: rest).map test_workflow) := by
    simp [main_run, hd]
  rw [h1]
  by_cases hf : (((e :: rest).map test_workflow).filter fun t => !t.passed).length = 0 <;>
    simp [summarize, hf]

/-- Witness for c5_exit_code at a concrete run with one failing fixture. -/
theorem c5_exit_code_witness :
    check_daemon (HttpResult.resp 200 none) = true ∧
    (((main_run (HttpResult.resp 200 none)
        [⟨none, HttpResult.exn, HttpResult.exn, HttpResult.exn⟩]).exitCode = 0 ↔
      (main_run (HttpResult.resp 200 none)
        [⟨none, HttpResult.exn, HttpResult.exn, HttpResult.exn⟩]).failed = 0) ∧
     ((main_run (HttpResult.resp 200 none)
        [⟨none, HttpResult.exn, HttpResult.exn, HttpResult.exn⟩]).failed ≠ 0 →
      (main_run (HttpResult.resp 200 none)
        [⟨none, HttpResult.exn, HttpResult.exn, HttpResult.exn⟩]).exitCode = 1)) :=
  ⟨rfl, c5_exit_code (HttpResult.resp 200 none)
    ⟨none, HttpResult.exn, HttpResult.exn, HttpResult.exn⟩ [] rfl⟩

/-- C4: when the health probe fails, either by a raised connectivity
error or timeout or by a non-200 response, no test case runs, no create,
execute or delete request is ever issued, and the process exits with
code 1. -/
theorem c4_health_failure_aborts (health : HttpResult) (envs : List Env)
    (hf : health = HttpResult.exn ∨ ∃ s b, health = HttpResult.resp s b ∧ s ≠ 200) :
    (main_run health envs).casesRun = 0 ∧ (main_run health envs).createReqs = 0 ∧
    (main_run health envs).execCalls = 0 ∧ (main_run health envs).deleteCalls = 0 ∧
    (main_run health envs).exitCode = 1 := by
  have hd : check_daemon health = false := by
    rcases hf with h | ⟨s, b, h, hs⟩
    · rw [h]; rfl
    · rw [h]; simp [check_daemon, hs]
  simp [main_run, hd, daemonDownOutcome]

/-- Witness for c4_health_failure_aborts at a connectivity failure. -/
theorem c4_health_failure_aborts_witness :
    (HttpResult.exn = HttpResult.exn ∨
      ∃ s b, HttpResult.exn = HttpResult.resp s b ∧ s ≠ 200) ∧
    ((main_run HttpResult.exn [⟨none, HttpResult.exn, HttpResult.exn, HttpResult.exn⟩]).casesRun = 0 ∧
     (main_run HttpResult.exn [⟨none, HttpResult.exn, HttpResult.exn, HttpResult.exn⟩]).createReqs = 0 ∧
     (main_run HttpResult.exn [⟨none, HttpResult.exn, HttpResult.exn, HttpResult.exn⟩]).execCalls = 0 ∧
     (main_run HttpResult.exn [⟨none, HttpResult.exn, HttpResult.exn, HttpResult.exn⟩]).deleteCalls = 0 ∧
     (main_run HttpResult.exn [⟨none, HttpResult.exn, HttpResult.exn, HttpResult.exn⟩]).exitCode = 1) :=
  ⟨Or.inl rfl,
   c4_health_failure_aborts HttpResult.exn
     [⟨none, HttpResult.exn, HttpResult.exn, HttpResult.exn⟩] (Or.inl rfl)⟩

/-- C7: with a healthy service but an empty fixture directory, the run
aborts with exit code 1, zero test cases, zero lifecycle requests, and
the no-workflows diagnostic among the printed error lines. -/
theorem c7_no_fixtures_aborts (health : HttpResult) (hd : check_daemon health = true) :
    (main_run health []).exitCode = 1 ∧ (main_run health []).casesRun = 0 ∧
    (main_run health []).createReqs = 0 ∧ (main_run health []).execCalls = 0 ∧
    (main_run health []).deleteCalls = 0 ∧
    "No workflow files found in examples/workflows" ∈ (main_run health []).msgs := by
  simp [main_run, hd, noWorkflowsOutcome]

/-- Witness for c7_no_fixtures_aborts with a healthy probe response. -/
theorem c7_no_fixtures_aborts_witness :
    check_daemon (HttpResult.resp 200 none) = true ∧
    ((main_run (HttpResult.resp 200 none) []).exitCode = 1 ∧
     (main_run (HttpResult.resp 200 none) []).casesRun = 0 ∧
     (main_run (HttpResult.resp 200 none) []).createReqs = 0 ∧
     (main_run (HttpResult.resp 200 none) []).execCalls = 0 ∧
     (main_run (HttpResult.resp 200 none) []).deleteCalls = 0 ∧
     "No workflow files found in examples/workflows" ∈
       (main_run (HttpResult.resp 200 none) []).msgs) :=
  ⟨rfl, c7_no_fixtures_aborts (HttpResult.resp 200 none) rfl⟩

/-- C3: when the fixture loaded as a dict but the create call fails in
any of the listed ways, namely a raised connectivity error or timeout, a
non-2xx response, or a 2xx response whose dict body lacks the id field,
the case is recorded failed and no execute or delete request is issued. -/
theorem c3_create_failure_skips_rest (e : Env) (wfs : List (String × Json))
    (hl : e.loadResult = some (Json.obj wfs))
    (hc : e.createResp = HttpResult.exn ∨
          (∃ s b, e.createResp = HttpResult.resp s b ∧ ¬(s = 200 ∨ s = 201)) ∨
          (∃ s cfs, e.createResp = HttpResult.resp s (some (Json.obj cfs)) ∧
            (s = 200 ∨ s = 201) ∧ List.lookup "id" cfs = none)) :
    (test_workflow e).passed = false ∧ (test_workflow e).execCalled = false ∧
    (test_workflow e).deleteCalls = 0 := by
  have hcf : (create_workflow (Json.obj wfs) e.createResp).1 = false := by
    rcases hc with h | ⟨s, b, h, hs⟩ | ⟨s, cfs, h, hs, hid⟩
    · rw [h]; rfl
    · rw [h]; simp [create_workflow, create_body, hs]
    · rw [h]; simp [create_workflow, create_body, hs, hid, truthy]
  have ht : test_workflow e = ⟨true, false, false, 0, false, none⟩ := by
    simp [test_workflow, test_workflow_core, hl, create_body, hcf]
  rw [ht]
  exact ⟨rfl, rfl, rfl⟩

/-- Witness for c3_create_failure_skips_rest at a 500 create response. -/
theorem c3_create_failure_skips_rest_witness :
    ((⟨some (Json.obj []), HttpResult.resp 500 none, HttpResult.exn, HttpResult.exn⟩ : Env).loadResult
       = some (Json.obj [])) ∧
    ((test_workflow ⟨some (Json.obj []), HttpResult.resp 500 none,
        HttpResult.exn, HttpResult.exn⟩).passed = false ∧
     (test_workflow ⟨some (Json.obj []), HttpResult.resp 500 none,
        HttpResult.exn, HttpResult.exn⟩).execCalled = false ∧
     (test_workflow ⟨some (Json.obj []), HttpResult.resp 500 none,
        HttpResult.exn, HttpResult.exn⟩).deleteCalls = 0) :=
  ⟨rfl, c3_create_failure_skips_rest
    ⟨some (Json.obj []), HttpResult.resp 500 none, HttpResult.exn, HttpResult.exn⟩ [] rfl
    (Or.inr (Or.inl ⟨500, none, rfl, by omega⟩))⟩

/-- C8: a fixture whose file does not parse fails only its own entry:
its case is recorded failed with no create request issued, while the run
still processes every other fixture in the sequence and counts them all. -/
theorem c8_malformed_fixture_isolated (health : HttpResult) (pre post : List Env) (e : Env)
    (hd : check_daemon health = true) (hm : e.loadResult = none) :
    (test_workflow e).passed = false ∧ (test_workflow e).createReq = false ∧
    (test_workflow e).execCalled = false ∧ (test_workflow e).deleteCalls = 0 ∧
    (main_run health (pre ++ e :: post)).casesRun = pre.length + 1 + post.length ∧
    (main_run health (pre ++ e :: post)).total = pre.length + 1 + post.length := by
  have htr : test_workflow e = ⟨false, false, false, 0, false, none⟩ := by
    simp [test_workflow, test_workflow_core, hm]
  have hne : (pre ++ e :: post).isEmpty = false := by
    cases pre <;> rfl
  refine ⟨by rw [htr], by rw [htr], by rw [htr], by rw [htr], ?_, ?_⟩ <;>
    simp [main_run, hd, hne, summarize] <;> omega

/-- Witness for c8_malformed_fixture_isolated: one malformed fixture
between two well-formed ones. -/
theorem c8_malformed_fixture_isolated_witness :
    check_daemon (HttpResult.resp 200 none) = true ∧
    ((⟨none, HttpResult.exn, HttpResult.exn, HttpResult.exn⟩ : Env).loadResult = none) ∧
    ((test_workflow ⟨none, HttpResult.exn, HttpResult.exn, HttpResult.exn⟩).passed = false ∧
     (test_workflow ⟨none, HttpResult.exn, HttpResult.exn, HttpResult.exn⟩).createReq = false ∧
     (test_workflow ⟨none, HttpResult.exn, HttpResult.exn, HttpResult.exn⟩).execCalled = false ∧
     (test_workflow ⟨none, HttpResult.exn, HttpResult.exn, HttpResult.exn⟩).deleteCalls = 0 ∧
     (main_run (HttpResult.resp 200 none)
       ([⟨some (Json.obj []), HttpResult.exn, HttpResult.exn, HttpResult.exn⟩] ++
        (⟨none, HttpResult.exn, HttpResult.exn, HttpResult.exn⟩ : Env) ::
        [⟨some (Json.obj []), HttpResult.exn, HttpResult.exn, HttpResult.exn⟩])).casesRun = 1 + 1 + 1 ∧
     (main_run (HttpResult.resp 200 none)
       ([⟨some (Json.obj []), HttpResult.exn, HttpResult.exn, HttpResult.exn⟩] ++
        (⟨none, HttpResult.exn, HttpResult.exn, HttpResult.exn⟩ : Env) ::
        [⟨some (Json.obj []), HttpResult.exn, HttpResult.exn, HttpResult.exn⟩])).total = 1 + 1 + 1) :=
  ⟨rfl, rfl,
   c8_malformed_fixture_isolated (HttpResult.resp 200 none)
     [⟨some (Json.obj []), HttpResult.exn, HttpResult.exn, HttpResult.exn⟩]
     [⟨some (Json.obj []), HttpResult.exn, HttpResult.exn, HttpResult.exn⟩]
     ⟨none, HttpResult.exn, HttpResult.exn, HttpResult.exn⟩ rfl rfl⟩

/-- C9: when create succeeded and the execute call returns 200 with a
dict body holding no status key, the case is recorded failed and the
status value interpolated into the failure message is the literal string
unknown, coming from the get default. -/
theorem c9_missing_status_is_unknown (e : Env) (wfs rfs : List (String × Json))
    (hl : e.loadResult = some (Json.obj wfs))
    (hc : (create_workflow (Json.obj wfs) e.createResp).1 = true)
    (hx : e.execResp = HttpResult.resp 200 (some (Json.obj rfs)))
    (hs : List.lookup "status" rfs = none) :
    (test_workflow e).passed = false ∧
    (test_workflow e).statusReason = some (Json.str "unknown") := by
  have ht : test_workflow e = ⟨true, true, true, 1, false, some (Json.str "unknown")⟩ := by
    simp [test_workflow, test_workflow_core, hl, create_body, hc, hx, execute_workflow, hs,
      isCompleted]
  rw [ht]
  exact ⟨rfl, rfl⟩

/-- Witness for c9_missing_status_is_unknown. -/
theorem c9_missing_status_is_unknown_witness :
    ((⟨some (Json.obj []), HttpResult.resp 200 (some (Json.obj [("id", Json.str "w1")])),
        HttpResult.resp 200 (some (Json.obj [("result", Json.num 7)])),
        HttpResult.exn⟩ : Env).loadResult = some (Json.obj [])) ∧
    (create_workflow (Json.obj [])
      (HttpResult.resp 200 (some (Json.obj [("id", Json.str "w1")])))).1 = true ∧
    ((test_workflow ⟨some (Json.obj []),
        HttpResult.resp 200 (some (Json.obj [("id", Json.str "w1")])),
        HttpResult.resp 200 (some (Json.obj [("result", Json.num 7)])),
        HttpResult.exn⟩).passed = false ∧
     (test_workflow ⟨some (Json.obj []),
        HttpResult.resp 200 (some (Json.obj [("id", Json.str "w1")])),
        HttpResult.resp 200 (some (Json.obj [("result", Json.num 7)])),
        HttpResult.exn⟩).statusReason = some (Json.str "unknown")) :=
  ⟨rfl, rfl,
   c9_missing_status_is_unknown
     ⟨some (Json.obj []), HttpResult.resp 200 (some (Json.obj [("id", Json.str "w1")])),
       HttpResult.resp 200 (some (Json.obj [("result", Json.num 7)])), HttpResult.exn⟩
     [] [("result", Json.num 7)] rfl rfl rfl rfl⟩

/-- C10: any fixture that is a JSON object passes the loader and body
construction with the documented defaults for name, description, nodes
and connections, and a create request is issued for it whatever fields
it is missing. -/
theorem c10_permissive_loader (e : Env) (wfs : List (String × Json))
    (hl : e.loadResult = some (Json.obj wfs)) :
    (test_workflow e).createReq = true ∧
    create_body (Json.obj wfs) = some (Json.obj
      [("name", (List.lookup "name" wfs).getD (Json.str "Test Workflow")),
       ("description", (List.lookup "description" wfs).getD (Json.str "")),
       ("nodes", (List.lookup "nodes" wfs).getD (Json.arr [])),
       ("connections", (List.lookup "connections" wfs).getD (Json.arr []))]) := by
  refine ⟨?_, rfl⟩
  rw [test_workflow, hl]
  unfold test_workflow_core
  simp only [create_body]
  repeat first | rfl | split

/-- Witness for c10_permissive_loader at the empty fixture object. -/
theorem c10_permissive_loader_witness :
    ((⟨some (Json.obj []), HttpResult.exn, HttpResult.exn, HttpResult.exn⟩ : Env).loadResult
       = some (Json.obj [])) ∧
    ((test_workflow ⟨some (Json.obj []), HttpResult.exn, HttpResult.exn,
        HttpResult.exn⟩).createReq = true ∧
     create_body (Json.obj []) = some (Json.obj
       [("name", (List.lookup "name" ([] : List (String × Json))).getD (Json.str "Test Workflow")),
        ("description", (List.lookup "description" ([] : List (String × Json))).getD (Json.str "")),
        ("nodes", (List.lookup "nodes" ([] : List (String × Json))).getD (Json.arr [])),
        ("connections", (List.lookup "connections" ([] : List (String × Json))).getD (Json.arr []))])) :=
  ⟨rfl, c10_permissive_loader
    ⟨some (Json.obj []), HttpResult.exn, HttpResult.exn, HttpResult.exn⟩ [] rfl⟩

/-- C1 fails as stated: a transport-successful execute response whose
status is the string completed but whose output value is a truthy
non-dict makes the diagnostic printing raise, so the case is recorded
failed even though the status equals completed. -/
theorem c1_counterexample :
    (execute_workflow (HttpResult.resp 200 (some (Json.obj
       [("status", Json.str "completed"), ("output", Json.num 1)])))).1 = true ∧
    (List.lookup "status"
       [("status", Json.str "completed"), ("output", Json.num 1)]).getD (Json.str "unknown")
      = Json.str "completed" ∧
    (create_workflow (Json.obj [])
       (HttpResult.resp 200 (some (Json.obj [("id", Json.str "w1")])))).1 = true ∧
    (test_workflow ⟨some (Json.obj []),
       HttpResult.resp 200 (some (Json.obj [("id", Json.str "w1")])),
       HttpResult.resp 200 (some (Json.obj
         [("status", Json.str "completed"), ("output", Json.num 1)])),
       HttpResult.exn⟩).passed = false :=
  ⟨rfl, rfl, rfl, rfl⟩

/-- C1 amended: for a transport-successful execute call returning a dict
body, the case passes exactly when the status equals the string
completed and the output value survives the diagnostic printing, that
is, the output is absent, falsy, or itself a dict; and whenever the
status differs from completed, the status value reported in the failure
message is exactly the status value of the response. -/
theorem c1_verify_amended (e : Env) (wfs rfs : List (String × Json))
    (hl : e.loadResult = some (Json.obj wfs))
    (hc : (create_workflow (Json.obj wfs) e.createResp).1 = true)
    (hx : e.execResp = HttpResult.resp 200 (some (Json.obj rfs))) :
    (test_workflow e).passed =
      (isCompleted ((List.lookup "status" rfs).getD (Json.str "unknown")) &&
       outputPrintOk ((List.lookup "output" rfs).getD (Json.obj []))) ∧
    (test_workflow e).statusReason =
      (if isCompleted ((List.lookup "status" rfs).getD (Json.str "unknown")) then none
       else some ((List.lookup "status" rfs).getD (Json.str "unknown"))) := by
  have ht : test_workflow e =
      test_workflow_core (some (Json.obj wfs)) e.createResp
        (HttpResult.resp 200 (some (Json.obj rfs))) := by
    rw [test_workflow, hl, hx]
  rw [ht]
  cases hic : isCompleted ((List.lookup "status" rfs).getD (Json.str "unknown")) <;>
  cases hop : outputPrintOk ((List.lookup "output" rfs).getD (Json.obj [])) <;>
    simp [test_workflow_core, create_body, execute_workflow, hc, hic, hop]

/-- Witness for c1_verify_amended at an execute response with status
failed. -/
theorem c1_verify_amended_witness :
    ((⟨some (Json.obj []), HttpResult.resp 200 (some (Json.obj [("id", Json.str "w1")])),
        HttpResult.resp 200 (some (Json.obj [("status", Json.str "failed")])),
        HttpResult.exn⟩ : Env).loadResult = some (Json.obj [])) ∧
    (create_workflow (Json.obj [])
      (HttpResult.resp 200 (some (Json.obj [("id", Json.str "w1")])))).1 = true ∧
    ((test_workflow ⟨some (Json.obj []),
        HttpResult.resp 200 (some (Json.obj [("id", Json.str "w1")])),
        HttpResult.resp 200 (some (Json.obj [("status", Json.str "failed")])),
        HttpResult.exn⟩).passed =
       (isCompleted ((List.lookup "status" [("status", Json.str "failed")]).getD (Json.str "unknown")) &&
        outputPrintOk ((List.lookup "output" [("status", Json.str "failed")]).getD (Json.obj []))) ∧
     (test_workflow ⟨some (Json.obj []),
        HttpResult.resp 200 (some (Json.obj [("id", Json.str "w1")])),
        HttpResult.resp 200 (some (Json.obj [("status", Json.str "failed")])),
        HttpResult.exn⟩).statusReason =
       (if isCompleted ((List.lookup "status" [("status", Json.str "failed")]).getD (Json.str "unknown"))
        then none
        else some ((List.lookup "status" [("status", Json.str "failed")]).getD (Json.str "unknown")))) :=
  ⟨rfl, rfl,
   c1_verify_amended
     ⟨some (Json.obj []), HttpResult.resp 200 (some (Json.obj [("id", Json.str "w1")])),
       HttpResult.resp 200 (some (Json.obj [("status", Json.str "failed")])), HttpResult.exn⟩
     [] [("status", Json.str "failed")] rfl rfl rfl⟩

/-- C2 fails as stated: when create succeeded but the execute call
returns 200 with a body that is valid JSON yet not a dict, the attribute
access on the result raises before any delete_workflow call, so zero
delete requests are issued for a case whose create succeeded. -/
theorem c2_counterexample :
    (create_workflow (Json.obj [])
       (HttpResult.resp 200 (some (Json.obj [("id", Json.str "w1")])))).1 = true ∧
    (execute_workflow (HttpResult.resp 200 (some (Json.arr [])))).1 = true ∧
    (test_workflow ⟨some (Json.obj []),
       HttpResult.resp 200 (some (Json.obj [("id", Json.str "w1")])),
       HttpResult.resp 200 (some (Json.arr [])),
       HttpResult.exn⟩).createOk = true ∧
    (test_workflow ⟨some (Json.obj []),
       HttpResult.resp 200 (some (Json.obj [("id", Json.str "w1")])),
       HttpResult.resp 200 (some (Json.arr [])),
       HttpResult.exn⟩).deleteCalls = 0 :=
  ⟨rfl, rfl, rfl, rfl⟩

/-- C2 amended: when create succeeded and the execute oracle is
cleanup-safe, meaning the execute call either fails at transport level
or returns a dict body whose output survives the diagnostic printing
when the status is completed, exactly one delete request is issued; and
the outcome of the delete call never changes the trace of the case at
all, verdict included. -/
theorem c2_cleanup_amended (e : Env) (d : HttpResult) (wfs : List (String × Json))
    (hl : e.loadResult = some (Json.obj wfs))
    (hc : (create_workflow (Json.obj wfs) e.createResp).1 = true)
    (hs : cleanupSafe e.execResp = true) :
    (test_workflow e).deleteCalls = 1 ∧
    test_workflow ⟨e.loadResult, e.createResp, e.execResp, d⟩ = test_workflow e := by
  refine ⟨?_, rfl⟩
  have ht : test_workflow e = test_workflow_core (some (Json.obj wfs)) e.createResp e.execResp := by
    rw [test_workflow, hl]
  rw [ht]
  cases hx : e.execResp with
  | exn => simp [test_workflow_core, create_body, execute_workflow, hc]
  | resp s body =>
    rw [hx] at hs
    by_cases h200 : s = 200
    · subst h200
      cases body with
      | none => simp [test_workflow_core, create_body, execute_workflow, hc]
      | some j =>
        cases j with
        | null => simp [cleanupSafe] at hs
        | bool b => simp [cleanupSafe] at hs
        | num n => simp [cleanupSafe] at hs
        | str st => simp [cleanupSafe] at hs
        | arr elems => simp [cleanupSafe] at hs
        | obj fs =>
          cases hic : isCompleted ((List.lookup "status" fs).getD (Json.str "unknown")) with
          | false => simp [test_workflow_core, create_body, execute_workflow, hc, hic]
          | true =>
            rw [cleanupSafe] at hs
            simp [hic] at hs
            simp [test_workflow_core, create_body, execute_workflow, hc, hic, hs]
    · simp [test_workflow_core, create_body, execute_workflow, hc, h200]

/-- Witness for c2_cleanup_amended at a semantically failed execution. -/
theorem c2_cleanup_amended_witness :
    ((⟨some (Json.obj []), HttpResult.resp 200 (some (Json.obj [("id", Json.str "w1")])),
        HttpResult.resp 200 (some (Json.obj [("status", Json.str "failed")])),
        HttpResult.exn⟩ : Env).loadResult = some (Json.obj [])) ∧
    cleanupSafe (HttpResult.resp 200 (some (Json.obj [("status", Json.str "failed")]))) = true ∧
    ((test_workflow ⟨some (Json.obj []),
        HttpResult.resp 200 (some (Json.obj [("id", Json.str "w1")])),
        HttpResult.resp 200 (some (Json.obj [("status", Json.str "failed")])),
        HttpResult.exn⟩).deleteCalls = 1 ∧
     test_workflow ⟨(⟨some (Json.obj []),
         HttpResult.resp 200 (some (Json.obj [("id", Json.str "w1")])),
         HttpResult.resp 200 (some (Json.obj [("status", Json.str "failed")])),
         HttpResult.exn⟩ : Env).loadResult,
       (⟨some (Json.obj []),
         HttpResult.resp 200 (some (Json.obj [("id", Json.str "w1")])),
         HttpResult.resp 200 (some (Json.obj [("status", Json.str "failed")])),
         HttpResult.exn⟩ : Env).createResp,
       (⟨some (Json.obj []),
         HttpResult.resp 200 (some (Json.obj [("id", Json.str "w1")])),
         HttpResult.resp 200 (some (Json.obj [("status", Json.str "failed")])),
         HttpResult.exn⟩ : Env).execResp,
       HttpResult.resp 204 none⟩ =
     test_workflow ⟨some (Json.obj []),
        HttpResult.resp 200 (some (Json.obj [("id", Json.str "w1")])),
        HttpResult.resp 200 (some (Json.obj [("status", Json.str "failed")])),
        HttpResult.exn⟩) :=
  ⟨rfl, rfl,
   c2_cleanup_amended
     ⟨some (Json.obj []), HttpResult.resp 200 (some (Json.obj [("id", Json.str "w1")])),
       HttpResult.resp 200 (some (Json.obj [("status", Json.str "failed")])), HttpResult.exn⟩
     (HttpResult.resp 204 none) [] rfl rfl rfl⟩

end TestWorkflows
